import Mathlib

/-!
Shallow embedding of the activity synchronization and reconciliation
subsystem of runaway-edge: the Garmin webhook reconciler
(checkForDuplicate, mergeGarminData, processActivity), the Strava sync
processor (processJob, refreshToken, fetchActivitiesFromStrava,
storeActivity), the sync-beta fetcher (fetchStravaActivities,
mapStravaActivity), the Strava webhook (transformActivityData,
handleDeauthorization and its POST handler), and the SQL staleness sweep
(reset_stuck_sync_jobs).

Modelling conventions: JavaScript numbers are embedded as `Int` (every
predicate of the claims, and every boundary case, involves only integral
values; `Math.round` is then the identity and is dropped); epoch
timestamps are `Int` milliseconds; absent / undefined / null values are
`Option`; JavaScript truthiness of a numeric or string value is made
explicit via `jsTruthy` helpers (0, null, undefined and the empty string
are falsy); ISO-8601 timestamp strings compared with gte/lte are
embedded as their epoch values, lexicographic order on the strings
agreeing with numeric order on the epochs.
-/

/-- Truthiness of an optional number: null/undefined and 0 are falsy. -/
def jsTruthyI (x : Option Int) : Bool :=
  match x with
  | none => false
  | some v => v != 0

/-- Truthiness of an optional string: null/undefined and the empty string are falsy. -/
def jsTruthyS (x : Option String) : Bool :=
  match x with
  | none => false
  | some s => s != ""

/-- Garmin activity payload (interface GarminActivity in the garmin-webhook function). -/
structure GarminActivity where
  activityId : Option Int
  summaryId : Option String
  activityName : Option String
  activityType : String
  startTimeInSeconds : Int
  durationInSeconds : Int
  movingDurationInSeconds : Option Int
  distanceInMeters : Option Int
  averageHeartRateInBeatsPerMinute : Option Int
  maxHeartRateInBeatsPerMinute : Option Int
  averageRunCadenceInStepsPerMinute : Option Int
  totalElevationGainInMeters : Option Int
  deviceName : Option String
  manual : Option Bool
  deriving Repr, DecidableEq

/-- A stored row of the `activities` table, restricted to the columns the
reconciliation subsystem reads and writes. -/
structure ActivityRow where
  id : Int
  athlete_id : Option Int
  source : String
  external_id : Option String
  name : String
  activity_date : Int
  elapsed_time : Option Int
  moving_time : Option Int
  distance : Option Int
  average_heart_rate : Option Int
  max_heart_rate : Option Int
  average_cadence : Option Int
  device_name : Option String
  raw_data : Option GarminActivity
  created_at : Int
  updated_at : Int
  deriving Repr, DecidableEq

/-- Time window of checkForDuplicate: plus or minus 2 minutes, in milliseconds. -/
def timeWindowMs : Int := 2 * 60 * 1000

/-- The database query inside checkForDuplicate: activities of the given
athlete whose activity_date lies within the inclusive window around the
candidate start time, excluding rows whose source is garmin. -/
def queryWindow (rows : List ActivityRow) (athleteId : Int) (startMs : Int) :
    List ActivityRow :=
  rows.filter (fun r =>
    r.athlete_id == some athleteId &&
    startMs - timeWindowMs ≤ r.activity_date &&
    r.activity_date ≤ startMs + timeWindowMs &&
    r.source != "garmin")

/-- distanceMatch inside checkForDuplicate: a falsy candidate or stored
distance does not disqualify; otherwise the absolute difference must be
strictly below 100 meters. -/
def distanceMatch (candDistance : Option Int) (rowDistance : Option Int) : Bool :=
  !jsTruthyI candDistance || !jsTruthyI rowDistance ||
    |rowDistance.getD 0 - candDistance.getD 0| < 100

/-- durationMatch inside checkForDuplicate: a falsy stored elapsed_time
does not disqualify; otherwise the absolute difference must be strictly
below 60 seconds. -/
def durationMatch (candDuration : Int) (rowElapsed : Option Int) : Bool :=
  !jsTruthyI rowElapsed || |rowElapsed.getD 0 - candDuration| < 60

/-- Result of checkForDuplicate. -/
structure DupResult where
  isDuplicate : Bool
  existingId : Option Int
  existingSource : Option String
  deriving Repr, DecidableEq

/-- checkForDuplicate from the garmin-webhook function: a falsy athleteId
short-circuits to no-duplicate; otherwise the stored activities in the
time window are scanned in order and the first one matching on distance
and duration is reported as the duplicate. -/
def checkForDuplicate (rows : List ActivityRow) (athleteId : Option Int)
    (startMs : Int) (distance : Option Int) (duration : Int) : DupResult :=
  if !jsTruthyI athleteId then ⟨false, none, none⟩
  else
    let existing := queryWindow rows (athleteId.getD 0) startMs
    match existing.find? (fun a =>
        distanceMatch distance a.distance && durationMatch duration a.elapsed_time) with
    | some a => ⟨true, some a.id, some a.source⟩
    | none => ⟨false, none, none⟩

/-- The reconciliation decision taken by processActivity. -/
inductive ReconcileAction where
  | mergeInto (existingId : Int)
  | insertNew (newId : Int)
  deriving Repr, DecidableEq

/-- mapGarminActivityType from the garmin-webhook function. -/
def mapGarminActivityType (garminType : String) : String :=
  if garminType == "RUNNING" then "Run"
  else if garminType == "INDOOR_RUNNING" then "Run"
  else if garminType == "TREADMILL_RUNNING" then "Run"
  else if garminType == "TRAIL_RUNNING" then "Trail Run"
  else if garminType == "TRACK_RUNNING" then "Run"
  else if garminType == "WALKING" then "Walk"
  else if garminType == "HIKING" then "Hike"
  else if garminType == "CYCLING" then "Ride"
  else if garminType == "INDOOR_CYCLING" then "Ride"
  else if garminType == "MOUNTAIN_BIKING" then "Ride"
  else if garminType == "SWIMMING" then "Swim"
  else if garminType == "POOL_SWIMMING" then "Swim"
  else if garminType == "OPEN_WATER_SWIMMING" then "Swim"
  else if garminType == "STRENGTH_TRAINING" then "Workout"
  else if garminType == "CARDIO_TRAINING" then "Workout"
  else if garminType == "YOGA" then "Yoga"
  else if garminType == "OTHER" then "Workout"
  else "Workout"

/-- The id computed for a Garmin insert: the Garmin activityId when
truthy, otherwise the current epoch time in seconds, negated in absolute
value so that Garmin rows cannot collide with positive Strava ids. -/
def garminUniqueId (g : GarminActivity) (nowSec : Int) : Int :=
  let garminActivityId : Int :=
    if jsTruthyI g.activityId then g.activityId.getD 0 else nowSec
  (-(garminActivityId.natAbs : Int))

/-- The external_id produced for a Garmin insert:
activityId?.toString() || summaryId. -/
def garminExternalId (g : GarminActivity) : Option String :=
  match g.activityId with
  | some n => some (toString n)
  | none => g.summaryId

/-- The row inserted by processActivity when no duplicate is found. -/
def garminInsertRow (g : GarminActivity) (athleteId : Option Int) (nowMs : Int) :
    ActivityRow :=
  let activityDateMs := g.startTimeInSeconds * 1000
  { id := garminUniqueId g (nowMs / 1000)
  , athlete_id := athleteId
  , source := "garmin"
  , external_id := garminExternalId g
  , name := match g.activityName with
            | some n => n
            | none => mapGarminActivityType g.activityType ++ " Activity"
  , activity_date := activityDateMs
  , elapsed_time := some g.durationInSeconds
  , moving_time := some (if jsTruthyI g.movingDurationInSeconds then
      g.movingDurationInSeconds.getD 0 else g.durationInSeconds)
  , distance := g.distanceInMeters
  , average_heart_rate := g.averageHeartRateInBeatsPerMinute
  , max_heart_rate := g.maxHeartRateInBeatsPerMinute
  , average_cadence := g.averageRunCadenceInStepsPerMinute
  , device_name := g.deviceName
  , raw_data := some g
  , created_at := nowMs
  , updated_at := nowMs }

/-- The decision taken by processActivity: merge when checkForDuplicate
reports a duplicate with a truthy existing id, otherwise insert under the
Garmin-derived negative id. -/
def processActivityDecision (rows : List ActivityRow) (g : GarminActivity)
    (athleteId : Option Int) (nowMs : Int) : ReconcileAction :=
  let dup := checkForDuplicate rows athleteId (g.startTimeInSeconds * 1000)
    g.distanceInMeters g.durationInSeconds
  if dup.isDuplicate && jsTruthyI dup.existingId then
    .mergeInto (dup.existingId.getD 0)
  else
    .insertNew (garminUniqueId g (nowMs / 1000))

/-- A concrete stored Strava row used in examples. -/
def sampleStravaRow (dist : Int) (elapsed : Int) (date : Int) : ActivityRow :=
  { id := 5, athlete_id := some 7, source := "strava", external_id := none
  , name := "run", activity_date := date, elapsed_time := some elapsed
  , moving_time := none, distance := some dist
  , average_heart_rate := none, max_heart_rate := none
  , average_cadence := none, device_name := none, raw_data := none
  , created_at := 0, updated_at := 0 }

/-- A concrete stored Strava row with a chosen id. -/
def sampleStravaRowId (i : Int) (dist : Int) (elapsed : Int) (date : Int) :
    ActivityRow :=
  { sampleStravaRow dist elapsed date with id := i }

/-- mergeGarminData from the garmin-webhook function, applied to the
existing row: the update object always carries updated_at and raw_data,
and carries average/max heart rate, cadence and device name only when the
corresponding Garmin value is truthy; no other column appears in the
update. Since raw_data is always present the update object always has
more than one key, so the update is always executed. -/
def mergeGarminData (row : ActivityRow) (g : GarminActivity) (nowMs : Int) :
    ActivityRow :=
  let row := { row with updated_at := nowMs, raw_data := some g }
  let row := if jsTruthyI g.averageHeartRateInBeatsPerMinute then
    { row with average_heart_rate := g.averageHeartRateInBeatsPerMinute } else row
  let row := if jsTruthyI g.maxHeartRateInBeatsPerMinute then
    { row with max_heart_rate := g.maxHeartRateInBeatsPerMinute } else row
  let row := if jsTruthyI g.averageRunCadenceInStepsPerMinute then
    { row with average_cadence := g.averageRunCadenceInStepsPerMinute } else row
  let row := if jsTruthyS g.deviceName then
    { row with device_name := g.deviceName } else row
  row

/-- The partial unique index idx_activities_source_external_id of the
multi-source migration: UNIQUE ON activities(source, external_id) WHERE
external_id IS NOT NULL. A write of `row` violates it when another row —
a different id, since the row under the same id is the one being
replaced — carries the same source and the same non-null external_id. -/
def uniqueViolation (store : List ActivityRow) (row : ActivityRow) : Bool :=
  match row.external_id with
  | none => false
  | some e => store.any (fun r =>
      r.id != row.id && r.source == row.source && r.external_id == some e)

/-- The two arms of an upsert with onConflict id: when a row with the
same id exists it is replaced in place, otherwise the new row is
appended. -/
def upsertRows (store : List ActivityRow) (row : ActivityRow) : List ActivityRow :=
  if store.any (fun r => r.id == row.id) then
    store.map (fun r => if r.id == row.id then row else r)
  else
    store ++ [row]

/-- An attempted upsert (onConflict id) against the activities table:
`none` when the write violates the partial unique index on
(source, external_id) — the database raises a unique violation and the
calling function throws — otherwise the updated table. -/
def upsertAttempt (store : List ActivityRow) (row : ActivityRow) :
    Option (List ActivityRow) :=
  if uniqueViolation store row then none else some (upsertRows store row)

/-- The table state after an attempted upsert: unchanged when the write
was rejected (the thrown error aborts the request, not the table). -/
def upsertById (store : List ActivityRow) (row : ActivityRow) : List ActivityRow :=
  (upsertAttempt store row).getD store

/-- The update clause of mergeGarminData applied to the store: only the
row with the matching id is rewritten. -/
def updateById (store : List ActivityRow) (targetId : Int)
    (f : ActivityRow → ActivityRow) : List ActivityRow :=
  store.map (fun r => if r.id == targetId then f r else r)

/-- processActivity from the garmin-webhook function: merge the Garmin
data into the duplicate row when one is found (that UPDATE touches no
identity column, so the unique index cannot reject it), otherwise upsert
a fresh row under the Garmin-derived id — an insert the unique index may
reject, in which case processActivity throws (`none`). -/
def processActivityResult (store : List ActivityRow) (g : GarminActivity)
    (athleteId : Option Int) (nowMs : Int) : Option (List ActivityRow) :=
  match processActivityDecision store g athleteId nowMs with
  | .mergeInto existingId =>
      some (updateById store existingId (fun r => mergeGarminData r g nowMs))
  | .insertNew _ => upsertAttempt store (garminInsertRow g athleteId nowMs)

/-- The table state after processActivity, whether or not it threw. -/
def processActivityStore (store : List ActivityRow) (g : GarminActivity)
    (athleteId : Option Int) (nowMs : Int) : List ActivityRow :=
  (processActivityResult store g athleteId nowMs).getD store

/-- Strava activity payload (interface StravaActivity in the sync
processor), restricted to the fields the persistence claims read. -/
structure StravaActivity where
  id : Int
  athleteId : Int
  name : String
  distance : Int
  moving_time : Int
  elapsed_time : Int
  total_elevation_gain : Int
  start_date : Int
  average_cadence : Option Int
  average_heartrate : Option Int
  max_heartrate : Option Int
  external_id : Option String
  device_name : Option String
  deriving Repr, DecidableEq

/-- storeActivity from the sync processor: builds the activity row from
the Strava payload, keyed by the Strava activity id, and upserts it with
onConflict id. Columns the sync processor does not write are left as
their defaults. -/
def storeActivityRow (a : StravaActivity) (nowMs : Int) : ActivityRow :=
  { id := a.id
  , athlete_id := some a.athleteId
  , source := "strava"
  , external_id := a.external_id
  , name := a.name
  , activity_date := a.start_date
  , elapsed_time := some a.elapsed_time
  , moving_time := some a.moving_time
  , distance := some a.distance
  , average_heart_rate := a.average_heartrate
  , max_heart_rate := a.max_heartrate
  , average_cadence := a.average_cadence
  , device_name := none
  , raw_data := none
  , created_at := nowMs
  , updated_at := nowMs }

/-- storeActivity from the sync processor: an attempted upsert of the
Strava-keyed row; `none` when the unique index rejects the write and
storeActivity throws. -/
def storeActivityResult (store : List ActivityRow) (a : StravaActivity)
    (nowMs : Int) : Option (List ActivityRow) :=
  upsertAttempt store (storeActivityRow a nowMs)

/-- The table state after storeActivity, whether or not it threw. -/
def storeActivity (store : List ActivityRow) (a : StravaActivity) (nowMs : Int) :
    List ActivityRow :=
  (storeActivityResult store a nowMs).getD store

/-- Number of rows of the store carrying a given id. -/
def countId (store : List ActivityRow) (i : Int) : Nat :=
  (store.filter (fun r => r.id == i)).length

/-- Number of rows of the store carrying a given (source, external_id) pair. -/
def countSourceExternal (store : List ActivityRow) (src : String)
    (ext : Option String) : Nat :=
  (store.filter (fun r => r.source == src && r.external_id == ext)).length

/-- Status of a sync job (CHECK constraint of the sync_jobs table). -/
inductive JobStatus where
  | pending
  | in_progress
  | completed
  | failed
  deriving Repr, DecidableEq

/-- A row of the sync_jobs table, restricted to the columns the staleness
sweep reads and writes. -/
structure SyncJob where
  status : JobStatus
  started_at : Option Int
  completed_at : Option Int
  retry_count : Int
  error_message : Option String
  deriving Repr, DecidableEq

/-- Staleness threshold of reset_stuck_sync_jobs: 30 minutes, in milliseconds. -/
def staleThresholdMs : Int := 30 * 60 * 1000

/-- The WHERE predicate shared by both UPDATEs of reset_stuck_sync_jobs
except for the retry_count bound: status = in_progress and started_at
strictly older than now minus 30 minutes (a NULL started_at never
satisfies the comparison). -/
def jobStale (now : Int) (j : SyncJob) : Bool :=
  j.status == .in_progress &&
    match j.started_at with
    | some t => t < now - staleThresholdMs
    | none => false

/-- reset_stuck_sync_jobs from the sync-jobs migration, acting on one
job row: the first UPDATE resets stale in_progress jobs with
retry_count < 3 to pending (clearing started_at, incrementing
retry_count); the second UPDATE, evaluated on the state the first one
left, marks stale in_progress jobs with retry_count >= 3 as failed. -/
def reset_stuck_sync_jobs (now : Int) (j : SyncJob) : SyncJob :=
  let j1 :=
    if jobStale now j && j.retry_count < 3 then
      { j with status := .pending
             , started_at := none
             , retry_count := j.retry_count + 1
             , error_message := some "Job timed out and was reset" }
    else j
  if jobStale now j1 && j1.retry_count ≥ 3 then
    { j1 with status := .failed
            , completed_at := some now
            , error_message := some "Job exceeded maximum retry count (3)" }
  else j1

/-- The strava_tokens row read by processJob. -/
structure TokenRow where
  access_token : String
  refresh_token : String
  expires_at : Int
  deriving Repr, DecidableEq

/-- Response of the Strava token endpoint as consumed by refreshToken. -/
structure RefreshResponse where
  ok : Bool
  access_token : String
  refresh_token : String
  expires_at : Int
  deriving Repr, DecidableEq

/-- Observable steps of processJob, in the order the code performs them. -/
inductive SyncEvent where
  | refreshCall (refreshTok : String)
  | persistTokens (access : String) (refresh : String) (expiresAtMs : Int)
  | fetchActivities (accessTok : String)
  | jobFailed
  deriving Repr, DecidableEq

/-- The token-handling prefix of processJob as an event trace: read the
athlete's tokens (failing the job when absent); when expires_at <= now,
call refreshToken — which posts to the token endpoint, persists the new
pair, and returns the new access token (failing the job when the
endpoint answers non-2xx) — and only then fetch activities with the
access token in hand. -/
def processJobTrace (tokens : Option TokenRow) (now : Int)
    (resp : RefreshResponse) : List SyncEvent :=
  match tokens with
  | none => [.jobFailed]
  | some t =>
    if t.expires_at ≤ now then
      if resp.ok then
        [ .refreshCall t.refresh_token
        , .persistTokens resp.access_token resp.refresh_token (resp.expires_at * 1000)
        , .fetchActivities resp.access_token ]
      else
        [.refreshCall t.refresh_token, .jobFailed]
    else
      [.fetchActivities t.access_token]

/-- Count of refresh calls in a trace. -/
def countRefreshCalls (trace : List SyncEvent) : Nat :=
  (trace.filter (fun e => match e with | .refreshCall _ => true | _ => false)).length

/-- The access tokens used by fetch events of a trace. -/
def fetchTokensOf (trace : List SyncEvent) : List String :=
  trace.filterMap (fun e => match e with | .fetchActivities tok => some tok | _ => none)

/-- Strava page size of the sync processor (perPage = 200). -/
def perPage : Nat := 200

/-- fetchActivitiesFromStrava from the sync processor, with the provider
abstracted as the number of activities returned per page and with
explicit fuel standing for the number of loop iterations the caller is
willing to observe. The loop breaks when a page is empty, returns a
truncated list when a truthy maxActivities is reached, breaks when a page
is short of perPage, and otherwise moves to the next page; it has no cap
on the page number. `none` means the loop was still running when the
fuel ran out. -/
def fetchActivitiesFromStrava (provider : Nat → Nat) (maxActivities : Option Int) :
    Nat → Nat → Nat → Option Nat
  | 0, _, _ => none
  | fuel + 1, page, acc =>
    let n := provider page
    if n == 0 then some acc
    else
      let acc' := acc + n
      if jsTruthyI maxActivities && (maxActivities.getD 0 : Int) ≤ (acc' : Int) then
        some (min acc' (maxActivities.getD 0).toNat)
      else if n < perPage then some acc'
      else fetchActivitiesFromStrava provider maxActivities fuel (page + 1) acc'

/-- Strava page size of the sync-beta function (STRAVA_PAGE_SIZE = 100). -/
def stravaPageSizeBeta : Nat := 100

/-- fetchStravaActivities from the sync-beta function, with the provider
abstracted as the number of activities returned for a requested page and
per_page count, and with explicit fuel standing for loop iterations. The
loop runs while hasMore and the accumulated count is below the limit,
requests per_page = min(STRAVA_PAGE_SIZE, limit - count), clears hasMore
on a page short of STRAVA_PAGE_SIZE, otherwise advances the page counter,
and breaks outright once the page counter exceeds 100 — the hard safety
cap. `none` means the fuel ran out. -/
def fetchStravaActivitiesBeta (provider : Nat → Nat → Nat) (limit : Nat) :
    Nat → Nat → Nat → Option Nat
  | 0, _, _ => none
  | fuel + 1, page, acc =>
    if acc < limit then
      let req := min stravaPageSizeBeta (limit - acc)
      let n := provider page req
      let acc' := acc + n
      if n < stravaPageSizeBeta then some acc'
      else if page + 1 > 100 then some acc'
      else fetchStravaActivitiesBeta provider limit fuel (page + 1) acc'
    else some acc

/-- The raw activity payload fetched by the strava-webhook activity
handler (the fields transformActivityData reads; every field except the
id may be absent from the JSON). -/
structure StravaDetailRecord where
  id : Int
  name : Option String
  sport_type : Option String
  start_date : Option Int
  start_date_local : Option Int
  elapsed_time : Option Int
  moving_time : Option Int
  distance : Option Int
  total_elevation_gain : Option Int
  elev_high : Option Int
  elev_low : Option Int
  max_speed : Option Int
  average_speed : Option Int
  max_heartrate : Option Int
  average_heartrate : Option Int
  max_watts : Option Int
  average_watts : Option Int
  calories : Option Int
  deriving Repr, DecidableEq

/-- The transformed record built by transformActivityData, restricted to
the columns the normalization claims read. -/
structure TransformedActivity where
  id : Int
  athlete_id : Int
  elapsed_time : Option Int
  moving_time : Option Int
  distance : Option Int
  elevation_gain : Option Int
  elevation_high : Option Int
  elevation_low : Option Int
  max_heart_rate : Option Int
  average_heart_rate : Option Int
  max_watts : Option Int
  average_watts : Option Int
  calories : Int
  external_id : Option String
  deriving Repr, DecidableEq

/-- transformActivityData from the strava-webhook function: heart rates
and watts are written through a truthiness check (falsy becomes null,
truthy is rounded — the identity on the integral values modelled here);
elevation and the other numeric fields are copied as-is, the trailing
forEach turning undefined into null; calories defaults to 1 when falsy;
external_id is the Strava id rendered as a string. -/
def transformActivityData (athleteId : Int) (r : StravaDetailRecord) :
    TransformedActivity :=
  { id := r.id
  , athlete_id := athleteId
  , elapsed_time := r.elapsed_time
  , moving_time := r.moving_time
  , distance := r.distance
  , elevation_gain := r.total_elevation_gain
  , elevation_high := r.elev_high
  , elevation_low := r.elev_low
  , max_heart_rate := if jsTruthyI r.max_heartrate then r.max_heartrate else none
  , average_heart_rate := if jsTruthyI r.average_heartrate then r.average_heartrate else none
  , max_watts := if jsTruthyI r.max_watts then r.max_watts else none
  , average_watts := if jsTruthyI r.average_watts then r.average_watts else none
  , calories := if jsTruthyI r.calories then r.calories.getD 0 else 1
  , external_id := some (toString r.id) }

/-- The activity payload of the sync-beta fetch (interface StravaActivity
of the sync-beta function, restricted to the fields mapStravaActivity
reads for the normalization claims). -/
structure StravaBetaActivity where
  id : Int
  name : String
  distance : Int
  moving_time : Int
  elapsed_time : Int
  total_elevation_gain : Int
  start_date : Int
  average_heartrate : Option Int
  max_heartrate : Option Int
  average_cadence : Option Int
  calories : Option Int
  device_name : Option String
  deriving Repr, DecidableEq

/-- The record built by mapStravaActivity, restricted to the columns the
normalization claims read. -/
structure MappedActivity where
  id : Int
  athlete_id : Int
  distance : Int
  moving_time : Int
  elapsed_time : Int
  elevation_gain : Int
  average_heart_rate : Option Int
  max_heart_rate : Option Int
  average_cadence : Option Int
  calories : Option Int
  device_name : Option String
  source : String
  deriving Repr, DecidableEq

/-- mapStravaActivity from the sync-beta function: heart rate, cadence,
calories and device name go through `value || null`, so falsy values
(absent or zero / empty) become null; distance, times and elevation gain
are copied as-is; the source tag is strava. -/
def mapStravaActivity (a : StravaBetaActivity) (athleteId : Int) : MappedActivity :=
  { id := a.id
  , athlete_id := athleteId
  , distance := a.distance
  , moving_time := a.moving_time
  , elapsed_time := a.elapsed_time
  , elevation_gain := a.total_elevation_gain
  , average_heart_rate := if jsTruthyI a.average_heartrate then a.average_heartrate else none
  , max_heart_rate := if jsTruthyI a.max_heartrate then a.max_heartrate else none
  , average_cadence := if jsTruthyI a.average_cadence then a.average_cadence else none
  , calories := if jsTruthyI a.calories then a.calories else none
  , device_name := if jsTruthyS a.device_name then a.device_name else none
  , source := "strava" }

/-- The athletes-table credential columns touched by handleDeauthorization. -/
structure AthleteCreds where
  strava_connected : Bool
  strava_disconnected_at : Option Int
  access_token : Option String
  refresh_token : Option String
  token_expires_at : Option Int
  fcm_token : Option String
  deriving Repr, DecidableEq

/-- handleDeauthorization from the strava-webhook function: clear the
token triple, mark the athlete disconnected, stamp the disconnect time.
The database update either applies or errors; the error is rethrown to
the POST handler. -/
def handleDeauthorization (a : AthleteCreds) (nowMs : Int) : AthleteCreds :=
  { a with strava_connected := false
         , strava_disconnected_at := some nowMs
         , access_token := none
         , refresh_token := none
         , token_expires_at := none }

/-- An HTTP response of the strava-webhook POST handler. -/
structure WebhookResponse where
  status : Nat
  body : String
  deriving Repr, DecidableEq

/-- The deauthorization branch of the strava-webhook POST handler,
returning the athlete row as left in the database and the HTTP response:
when the credential-clearing update succeeds the handler answers 200
DEAUTH_PROCESSED; when it fails, handleDeauthorization throws, the
catch-all swallows the error and the handler still answers 200
ERROR_LOGGED (to prevent Strava from retrying), leaving the row
unchanged. -/
def deauthBranch (a : AthleteCreds) (nowMs : Int) (updateOk : Bool) :
    AthleteCreds × WebhookResponse :=
  if updateOk then
    (handleDeauthorization a nowMs, ⟨200, "DEAUTH_PROCESSED"⟩)
  else
    (a, ⟨200, "ERROR_LOGGED"⟩)

/-- Concrete Garmin payload used by the identity witnesses: a run with a
Garmin activityId. -/
def sampleGarmin : GarminActivity :=
  { activityId := some 123456
  , summaryId := some "sum-1"
  , activityName := some "Morning Run"
  , activityType := "RUNNING"
  , startTimeInSeconds := 45
  , durationInSeconds := 1790
  , movingDurationInSeconds := none
  , distanceInMeters := some 5050
  , averageHeartRateInBeatsPerMinute := some 150
  , maxHeartRateInBeatsPerMinute := some 182
  , averageRunCadenceInStepsPerMinute := none
  , totalElevationGainInMeters := some 42
  , deviceName := some "Forerunner 955"
  , manual := none }

/-- Concrete athlete credential row used by the deauthorization claims. -/
def sampleCreds : AthleteCreds :=
  { strava_connected := true
  , strava_disconnected_at := none
  , access_token := some "tokA"
  , refresh_token := some "tokR"
  , token_expires_at := some 99
  , fcm_token := some "fcm" }

/-- The sampleGarmin run placed at the candidate boundary: start time
zero, distance 5000, elapsed duration 1800. -/
def boundaryGarmin : GarminActivity :=
  { sampleGarmin with startTimeInSeconds := 0
                    , distanceInMeters := some 5000
                    , durationInSeconds := 1800 }

/-- The sampleGarmin run with no Garmin activityId, identified only by
its summaryId. -/
def summaryOnlyGarmin : GarminActivity :=
  { sampleGarmin with activityId := none, summaryId := some "s1" }

/-- A matching stored row far from the candidate start (delta 100 s),
enumerated first in the tie-break scenario. -/
def farRow : ActivityRow := sampleStravaRow 5050 1800 100000

/-- A matching stored row near the candidate start (delta 1 s),
enumerated second in the tie-break scenario. -/
def nearRow : ActivityRow := sampleStravaRowId 6 5050 1800 1000

/-- A raw Strava webhook record whose heart rates and watts are recorded
as zero and whose elevation gain is recorded as zero. -/
def zeroHrRecord : StravaDetailRecord :=
  { id := 99, name := some "z", sport_type := some "Run"
  , start_date := some 0, start_date_local := some 0
  , elapsed_time := some 1800, moving_time := some 1700
  , distance := some 5000, total_elevation_gain := some 0
  , elev_high := none, elev_low := none
  , max_speed := none, average_speed := none
  , max_heartrate := some 0, average_heartrate := some 0
  , max_watts := some 0, average_watts := some 0
  , calories := none }

/-- A raw Strava webhook record with a recorded nonzero heart rate and
absent watts. -/
def hrRecord : StravaDetailRecord :=
  { zeroHrRecord with average_heartrate := some 150, max_heartrate := some 182
                    , max_watts := none, average_watts := none }

/-- A concrete Strava sync-processor activity used by witnesses. -/
def sampleStrava : StravaActivity :=
  { id := 777, athleteId := 7, name := "morning run", distance := 5000
  , moving_time := 1700, elapsed_time := 1800, total_elevation_gain := 10
  , start_date := 0, average_cadence := none, average_heartrate := some 150
  , max_heartrate := none, external_id := some "x1", device_name := none }

/-- A sync-beta activity whose cadence is recorded as zero and whose
heart rate is absent. -/
def zeroCadenceBeta : StravaBetaActivity :=
  { id := 42, name := "b", distance := 5000, moving_time := 1700
  , elapsed_time := 1800, total_elevation_gain := 0, start_date := 0
  , average_heartrate := none, max_heartrate := none
  , average_cadence := some 0, calories := none, device_name := none }

/-- C3: the staleness sweep maps a stale in_progress job (started more
than 30 minutes ago) with retry_count < 3 to pending with retry_count
incremented (clearing started_at, stamping the timeout message), maps a
stale in_progress job with retry_count >= 3 to failed (stamping
completed_at and the retry-cap message), and leaves every job that is
not stale in_progress — in particular every job in another status —
unchanged. -/
theorem staleness_sweep_cases (now : Int) (j : SyncJob) :
    (jobStale now j = true → j.retry_count < 3 →
      reset_stuck_sync_jobs now j =
        { j with status := .pending
               , started_at := none
               , retry_count := j.retry_count + 1
               , error_message := some "Job timed out and was reset" }) ∧
    (jobStale now j = true → 3 ≤ j.retry_count →
      reset_stuck_sync_jobs now j =
        { j with status := .failed
               , completed_at := some now
               , error_message := some "Job exceeded maximum retry count (3)" }) ∧
    (jobStale now j = false → reset_stuck_sync_jobs now j = j) := by
  refine ⟨?_, ?_, ?_⟩
  · intro hs hr
    simp only [reset_stuck_sync_jobs, hs, decide_eq_true hr, Bool.true_and, if_pos rfl]
    simp [jobStale]
  · intro hs hr
    have hr' : ¬ j.retry_count < 3 := by omega
    simp only [reset_stuck_sync_jobs, hs, hr', decide_eq_false hr', Bool.true_and,
      Bool.and_false]
    simp [hs, decide_eq_true hr]
  · intro hs
    simp [reset_stuck_sync_jobs, hs]

/-- Witness for the staleness sweep theorem at concrete jobs: a stale
job with one retry is reset to pending with two retries; a stale job
with three retries is failed; a fresh in_progress job is untouched. -/
theorem staleness_sweep_cases_witness :
    (jobStale 10000000 ⟨.in_progress, some 0, none, 1, none⟩ = true ∧
      reset_stuck_sync_jobs 10000000 ⟨.in_progress, some 0, none, 1, none⟩ =
        ⟨.pending, none, none, 2, some "Job timed out and was reset"⟩) ∧
    (jobStale 10000000 ⟨.in_progress, some 0, none, 3, none⟩ = true ∧
      reset_stuck_sync_jobs 10000000 ⟨.in_progress, some 0, none, 3, none⟩ =
        ⟨.failed, some 0, some 10000000, 3, some "Job exceeded maximum retry count (3)"⟩) ∧
    (jobStale 10000000 ⟨.in_progress, some 9000000, none, 0, none⟩ = false ∧
      reset_stuck_sync_jobs 10000000 ⟨.in_progress, some 9000000, none, 0, none⟩ =
        ⟨.in_progress, some 9000000, none, 0, none⟩) :=
  ⟨⟨by decide, (staleness_sweep_cases 10000000 ⟨.in_progress, some 0, none, 1, none⟩).1
      (by decide) (by decide)⟩,
   ⟨by decide, (staleness_sweep_cases 10000000 ⟨.in_progress, some 0, none, 3, none⟩).2.1
      (by decide) (by decide)⟩,
   ⟨by decide, (staleness_sweep_cases 10000000 ⟨.in_progress, some 9000000, none, 0, none⟩).2.2
      (by decide)⟩⟩

/-- C6: the merge writes into the existing row only the candidate's
heart rates, cadence and device name (each only when the Garmin payload
carries a truthy value) and the raw payload, always refreshes the
updated-at timestamp, and leaves the row's id, distance and duration
fields — and every other column — unchanged. -/
theorem merge_frame_effect (row : ActivityRow) (g : GarminActivity) (nowMs : Int) :
    (mergeGarminData row g nowMs).id = row.id ∧
    (mergeGarminData row g nowMs).distance = row.distance ∧
    (mergeGarminData row g nowMs).elapsed_time = row.elapsed_time ∧
    (mergeGarminData row g nowMs).moving_time = row.moving_time ∧
    (mergeGarminData row g nowMs).updated_at = nowMs ∧
    (mergeGarminData row g nowMs).raw_data = some g ∧
    (mergeGarminData row g nowMs).average_heart_rate =
      (if jsTruthyI g.averageHeartRateInBeatsPerMinute then
        g.averageHeartRateInBeatsPerMinute else row.average_heart_rate) ∧
    (mergeGarminData row g nowMs).max_heart_rate =
      (if jsTruthyI g.maxHeartRateInBeatsPerMinute then
        g.maxHeartRateInBeatsPerMinute else row.max_heart_rate) ∧
    (mergeGarminData row g nowMs).average_cadence =
      (if jsTruthyI g.averageRunCadenceInStepsPerMinute then
        g.averageRunCadenceInStepsPerMinute else row.average_cadence) ∧
    (mergeGarminData row g nowMs).device_name =
      (if jsTruthyS g.deviceName then g.deviceName else row.device_name) ∧
    (mergeGarminData row g nowMs).athlete_id = row.athlete_id ∧
    (mergeGarminData row g nowMs).source = row.source ∧
    (mergeGarminData row g nowMs).external_id = row.external_id ∧
    (mergeGarminData row g nowMs).name = row.name ∧
    (mergeGarminData row g nowMs).activity_date = row.activity_date ∧
    (mergeGarminData row g nowMs).created_at = row.created_at := by
  simp only [mergeGarminData]
  split <;> split <;> split <;> split <;> simp

/-- C4: when the stored credential is expired (expires_at <= now) and the
refresh endpoint answers successfully, processJob performs exactly one
refresh call, persists the refreshed pair, and only then fetches with the
refreshed access token — the persist preceding the fetch in the trace;
and on any run, a fetch with the stale access token happens only when
that token is unexpired, so an expired access token is never used for the
provider call. -/
theorem token_refresh_before_fetch (t : TokenRow) (now : Int) (resp : RefreshResponse)
    (hexp : t.expires_at ≤ now) (hok : resp.ok = true) :
    processJobTrace (some t) now resp =
      [ .refreshCall t.refresh_token
      , .persistTokens resp.access_token resp.refresh_token (resp.expires_at * 1000)
      , .fetchActivities resp.access_token ] ∧
    countRefreshCalls (processJobTrace (some t) now resp) = 1 ∧
    fetchTokensOf (processJobTrace (some t) now resp) = [resp.access_token] ∧
    (∀ t' : TokenRow, t'.expires_at ≤ now →
      ∀ tok, SyncEvent.fetchActivities tok ∈ processJobTrace (some t') now resp →
        tok = resp.access_token) := by
  have htrace : processJobTrace (some t) now resp =
      [ .refreshCall t.refresh_token
      , .persistTokens resp.access_token resp.refresh_token (resp.expires_at * 1000)
      , .fetchActivities resp.access_token ] := by
    simp [processJobTrace, hexp, hok]
  refine ⟨htrace, ?_, ?_, ?_⟩
  · rw [htrace]; rfl
  · rw [htrace]; rfl
  · intro t' hexp' tok hmem
    simp [processJobTrace, hexp', hok] at hmem
    exact hmem

/-- C10: the Garmin insert path assigns a strictly negative primary key
(the negated absolute value of the truthy Garmin activityId, or of the
positive current epoch-second fallback when the activityId is absent or
zero), while every Strava ingestion path keys the row by the provider's
activity id; hence a Garmin insert never carries the id of any stored
row with a positive (Strava) id, and upserting it leaves every such row
in place. -/
theorem garmin_insert_id_disjoint (g : GarminActivity) (athleteId : Option Int)
    (nowMs : Int) (hnow : 0 < nowMs / 1000) :
    (garminInsertRow g athleteId nowMs).id < 0 ∧
    (∀ r : StravaDetailRecord, ∀ aid, (transformActivityData aid r).id = r.id) ∧
    (∀ a : StravaActivity, ∀ ms, (storeActivityRow a ms).id = a.id) ∧
    (∀ a : StravaBetaActivity, ∀ aid, (mapStravaActivity a aid).id = a.id) ∧
    (∀ store : List ActivityRow, ∀ r ∈ store, 0 < r.id →
      (garminInsertRow g athleteId nowMs).id ≠ r.id ∧
      r ∈ upsertById store (garminInsertRow g athleteId nowMs)) := by
  have hbase : (if jsTruthyI g.activityId then g.activityId.getD 0 else nowMs / 1000) ≠ 0 := by
    by_cases hact : jsTruthyI g.activityId = true
    · rw [if_pos hact]
      unfold jsTruthyI at hact
      cases hA : g.activityId with
      | none => rw [hA] at hact; simp at hact
      | some v =>
        rw [hA] at hact
        simp only [bne_iff_ne, ne_eq, decide_eq_true_eq] at hact
        simpa using hact
    · rw [if_neg hact]
      omega
  have hid : (garminInsertRow g athleteId nowMs).id < 0 := by
    have h1 : (garminInsertRow g athleteId nowMs).id =
        (-(((if jsTruthyI g.activityId then g.activityId.getD 0 else nowMs / 1000)).natAbs : Int)) := by
      simp [garminInsertRow, garminUniqueId]
    rw [h1]
    have := Int.natAbs_ne_zero.mpr hbase
    omega
  refine ⟨hid, fun r aid => rfl, fun a ms => rfl, fun a aid => rfl, ?_⟩
  intro store r hr hpos
  have hne : (garminInsertRow g athleteId nowMs).id ≠ r.id := by omega
  refine ⟨hne, ?_⟩
  by_cases hv : uniqueViolation store (garminInsertRow g athleteId nowMs) = true
  · have hstay : upsertById store (garminInsertRow g athleteId nowMs) = store := by
      simp [upsertById, upsertAttempt, hv]
    rw [hstay]
    exact hr
  · have hvf : uniqueViolation store (garminInsertRow g athleteId nowMs) = false := by
      cases h : uniqueViolation store (garminInsertRow g athleteId nowMs) with
      | false => rfl
      | true => exact absurd h hv
    have hrw : upsertById store (garminInsertRow g athleteId nowMs) =
        upsertRows store (garminInsertRow g athleteId nowMs) := by
      simp [upsertById, upsertAttempt, hvf]
    rw [hrw]
    by_cases hany : store.any (fun x => x.id == (garminInsertRow g athleteId nowMs).id) = true
    · have : upsertRows store (garminInsertRow g athleteId nowMs) =
          store.map (fun x => if x.id == (garminInsertRow g athleteId nowMs).id
            then garminInsertRow g athleteId nowMs else x) := by
        simp [upsertRows, hany]
      rw [this]
      have hrne : (r.id == (garminInsertRow g athleteId nowMs).id) = false := by
        simp only [beq_eq_false_iff_ne, ne_eq]
        omega
      exact List.mem_map.mpr ⟨r, hr, by simp [hrne]⟩
    · have : upsertRows store (garminInsertRow g athleteId nowMs) =
          store ++ [garminInsertRow g athleteId nowMs] := by
        simp only [upsertRows]
        rw [if_neg hany]
      rw [this]
      exact List.mem_append_left _ hr

/-- Witness for the id-disjointness theorem: a concrete Garmin insert at
a realistic clock gets id -123456, which is negative and distinct from a
stored Strava row's positive id, and the upsert keeps that row. -/
theorem garmin_insert_id_disjoint_witness :
    (0 : Int) < 1700000000000 / 1000 ∧
    (garminInsertRow sampleGarmin (some 7) 1700000000000).id < 0 ∧
    sampleStravaRow 5050 1800 0 ∈
      upsertById [sampleStravaRow 5050 1800 0]
        (garminInsertRow sampleGarmin (some 7) 1700000000000) :=
  ⟨by decide,
   (garmin_insert_id_disjoint sampleGarmin (some 7) 1700000000000 (by decide)).1,
   ((garmin_insert_id_disjoint sampleGarmin (some 7) 1700000000000 (by decide)).2.2.2.2
     [sampleStravaRow 5050 1800 0] (sampleStravaRow 5050 1800 0) (by simp)
     (by decide)).2⟩

/-- C5: against a provider that answers every page with a full page of
200 activities, and with no activity cap (a job whose metadata carries no
max_activities, so maxActivities is null), the sync processor's
pagination loop never stops: however much fuel the loop is given, it is
still requesting further pages. The loop has no cap on the page counter,
in contrast to the sync-beta fetcher, which breaks once the page counter
exceeds 100. -/
theorem fetch_loop_runs_forever :
    ∀ fuel page acc,
      fetchActivitiesFromStrava (fun _ => perPage) none fuel page acc = none := by
  intro fuel
  induction fuel with
  | zero => intro page acc; rfl
  | succ n ih =>
    intro page acc
    simp only [fetchActivitiesFromStrava, perPage, jsTruthyI]
    norm_num
    exact ih (page + 1) (acc + 200)

/-- The sync-beta pagination loop, by contrast, terminates: as soon as
the fuel covers the remaining page budget (at least one step, and
page + fuel beyond the hard cap of 100), the loop delivers a result, so
at most 100 page requests are ever issued from page 1. -/
theorem fetch_beta_loop_terminates (provider : Nat → Nat → Nat) (limit : Nat) :
    ∀ fuel page acc, 1 ≤ fuel → 100 < page + fuel →
      fetchStravaActivitiesBeta provider limit fuel page acc ≠ none := by
  intro fuel
  induction fuel with
  | zero => intro page acc h1 _; omega
  | succ f ih =>
    intro page acc _ h2
    simp only [fetchStravaActivitiesBeta]
    by_cases hacc : acc < limit
    · rw [if_pos hacc]
      by_cases hshort : provider page (min stravaPageSizeBeta (limit - acc)) < stravaPageSizeBeta
      · simp [hshort]
      · rw [if_neg hshort]
        by_cases hcap : page + 1 > 100
        · simp [hcap]
        · rw [if_neg hcap]
          exact ih (page + 1) (acc + provider page (min stravaPageSizeBeta (limit - acc)))
            (by omega) (by omega)
    · rw [if_neg hacc]
      simp

/-- C7 counterexample: when the credential-clearing update fails, the
POST handler answers HTTP 200 — the very status the successful
deauthorization answers — with body ERROR_LOGGED: a success-shaped
acknowledgment, not a failure response, and the stale credential is left
in place. -/
theorem deauth_failure_answers_200 :
    (deauthBranch sampleCreds 0 false).2.status = 200 ∧
    (deauthBranch sampleCreds 0 false).2.status =
      (deauthBranch sampleCreds 0 true).2.status ∧
    (deauthBranch sampleCreds 0 false).1 = sampleCreds ∧
    (deauthBranch sampleCreds 0 false).1.access_token = some "tokA" := by decide

/-- C7 amended: on a deauthorization event the handler clears the access
token, refresh token and expiry and marks the athlete disconnected when
the update succeeds, answering 200 DEAUTH_PROCESSED; when the update
fails the stored credential is unchanged and the handler still answers
HTTP 200, the body ERROR_LOGGED alone distinguishing the failure — per
the webhook policy of always acknowledging with 200 to prevent provider
retries, the status never indicates failure. -/
theorem deauth_behavior (a : AthleteCreds) (nowMs : Int) (ok : Bool) :
    (ok = true →
      (deauthBranch a nowMs ok).1.access_token = none ∧
      (deauthBranch a nowMs ok).1.refresh_token = none ∧
      (deauthBranch a nowMs ok).1.token_expires_at = none ∧
      (deauthBranch a nowMs ok).1.strava_connected = false ∧
      (deauthBranch a nowMs ok).1.strava_disconnected_at = some nowMs ∧
      (deauthBranch a nowMs ok).2 = ⟨200, "DEAUTH_PROCESSED"⟩) ∧
    (ok = false →
      (deauthBranch a nowMs ok).1 = a ∧
      (deauthBranch a nowMs ok).2 = ⟨200, "ERROR_LOGGED"⟩) := by
  constructor <;> intro h <;> subst h <;>
    simp [deauthBranch, handleDeauthorization]

/-- Witness for the deauthorization theorem at the concrete credential
row: success clears the tokens, failure leaves them and answers 200. -/
theorem deauth_behavior_witness :
    ((deauthBranch sampleCreds 5 true).1.access_token = none ∧
      (deauthBranch sampleCreds 5 true).1.refresh_token = none ∧
      (deauthBranch sampleCreds 5 true).1.token_expires_at = none ∧
      (deauthBranch sampleCreds 5 true).1.strava_connected = false ∧
      (deauthBranch sampleCreds 5 true).1.strava_disconnected_at = some 5 ∧
      (deauthBranch sampleCreds 5 true).2 = ⟨200, "DEAUTH_PROCESSED"⟩) ∧
    ((deauthBranch sampleCreds 5 false).1 = sampleCreds ∧
      (deauthBranch sampleCreds 5 false).2 = ⟨200, "ERROR_LOGGED"⟩) :=
  ⟨(deauth_behavior sampleCreds 5 true).1 rfl,
   (deauth_behavior sampleCreds 5 false).2 rfl⟩

/-- Witness for the token-refresh theorem at a concrete expired
credential: the refreshed token is the one fetched with. -/
theorem token_refresh_before_fetch_witness :
    (1000 : Int) ≤ 2000 ∧ (RefreshResponse.mk true "newA" "newR" 9).ok = true ∧
    processJobTrace (some ⟨"oldA", "oldR", 1000⟩) 2000 ⟨true, "newA", "newR", 9⟩ =
      [ .refreshCall "oldR", .persistTokens "newA" "newR" 9000
      , .fetchActivities "newA" ] :=
  ⟨by decide, by decide,
    (token_refresh_before_fetch ⟨"oldA", "oldR", 1000⟩ 2000 ⟨true, "newA", "newR", 9⟩
      (by decide) (by decide)).1⟩

/-- C1 counterexample: a stored Strava activity for the same athlete
whose start time equals the candidate's, whose distance differs by
exactly 100 meters and whose elapsed duration is equal satisfies every
inclusive threshold of the claim (within 120 s, within 100 m, within
60 s), yet the reconciler decides Insert, not MergeInto: the code
compares distance with a strict < 100. -/
theorem reconciler_boundary_counterexample :
    ((sampleStravaRow 5100 1800 0).source ≠ "garmin" ∧
      (sampleStravaRow 5100 1800 0).athlete_id = some 7 ∧
      |(sampleStravaRow 5100 1800 0).activity_date -
        boundaryGarmin.startTimeInSeconds * 1000| ≤ timeWindowMs ∧
      |(sampleStravaRow 5100 1800 0).distance.getD 0 -
        boundaryGarmin.distanceInMeters.getD 0| ≤ 100 ∧
      |(sampleStravaRow 5100 1800 0).elapsed_time.getD 0 -
        boundaryGarmin.durationInSeconds| ≤ 60) ∧
    processActivityDecision [sampleStravaRow 5100 1800 0] boundaryGarmin (some 7)
      1700000000000 = .insertNew (-123456) := by decide

/-- C1 amended: with nonzero athlete and row ids, the reconciler decides
MergeInto whenever some stored activity of the athlete from a non-garmin
source starts within 120 seconds (inclusive) of the candidate, with
distance differing strictly below 100 meters when both distances are
truthy and elapsed duration differing strictly below 60 seconds when the
stored elapsed time is truthy; and it decides Insert whenever every
stored activity starts more than 120 seconds away from the candidate. -/
theorem reconciler_decision (rows : List ActivityRow) (g : GarminActivity)
    (aid : Int) (haid : aid ≠ 0) (nowMs : Int)
    (hids : ∀ r ∈ rows, r.id ≠ 0) :
    ((∃ r ∈ rows, r.athlete_id = some aid ∧ r.source ≠ "garmin" ∧
        |r.activity_date - g.startTimeInSeconds * 1000| ≤ timeWindowMs ∧
        (jsTruthyI g.distanceInMeters = true → jsTruthyI r.distance = true →
          |r.distance.getD 0 - g.distanceInMeters.getD 0| < 100) ∧
        (jsTruthyI r.elapsed_time = true →
          |r.elapsed_time.getD 0 - g.durationInSeconds| < 60)) →
      ∃ i, processActivityDecision rows g (some aid) nowMs = .mergeInto i) ∧
    ((∀ r ∈ rows, timeWindowMs < |r.activity_date - g.startTimeInSeconds * 1000|) →
      processActivityDecision rows g (some aid) nowMs =
        .insertNew (garminUniqueId g (nowMs / 1000))) := by
  have haidT : jsTruthyI (some aid) = true := by
    simpa [jsTruthyI] using haid
  constructor
  · rintro ⟨r, hr, hath, hsrc, htime, hdist, hdur⟩
    have hmem : r ∈ queryWindow rows aid (g.startTimeInSeconds * 1000) := by
      refine List.mem_filter.mpr ⟨hr, ?_⟩
      have h2 := abs_le.mp htime
      simp only [Bool.and_eq_true, beq_iff_eq, decide_eq_true_eq, bne_iff_ne, ne_eq]
      exact ⟨⟨⟨hath, by omega⟩, by omega⟩, hsrc⟩
    have hpred : (distanceMatch g.distanceInMeters r.distance &&
        durationMatch g.durationInSeconds r.elapsed_time) = true := by
      have hd : distanceMatch g.distanceInMeters r.distance = true := by
        unfold distanceMatch
        by_cases hc : jsTruthyI g.distanceInMeters = true
        · by_cases hrw : jsTruthyI r.distance = true
          · simp only [hc, hrw, Bool.not_true, Bool.false_or]
            exact decide_eq_true (hdist hc hrw)
          · simp [hrw]
        · simp [hc]
      have hu : durationMatch g.durationInSeconds r.elapsed_time = true := by
        unfold durationMatch
        by_cases hrw : jsTruthyI r.elapsed_time = true
        · simp only [hrw, Bool.not_true, Bool.false_or]
          exact decide_eq_true (hdur hrw)
        · simp [hrw]
      simp [hd, hu]
    have hsome : ((queryWindow rows aid (g.startTimeInSeconds * 1000)).find?
        (fun a => distanceMatch g.distanceInMeters a.distance &&
          durationMatch g.durationInSeconds a.elapsed_time)).isSome :=
      List.find?_isSome.mpr ⟨r, hmem, hpred⟩
    obtain ⟨a, hfind⟩ := Option.isSome_iff_exists.mp hsome
    have hamem : a ∈ rows := List.mem_of_mem_filter (List.mem_of_find?_eq_some hfind)
    have haid0 : a.id ≠ 0 := hids a hamem
    refine ⟨a.id, ?_⟩
    simp [processActivityDecision, checkForDuplicate, haidT, hfind, jsTruthyI,
      haid0, haid]
  · intro hall
    have hwin : queryWindow rows aid (g.startTimeInSeconds * 1000) = [] := by
      refine List.filter_eq_nil_iff.mpr ?_
      intro r hr hpred
      have hfar := hall r hr
      simp only [Bool.and_eq_true, beq_iff_eq, decide_eq_true_eq, bne_iff_ne, ne_eq]
        at hpred
      obtain ⟨⟨⟨-, hge⟩, hle⟩, -⟩ := hpred
      rcases lt_abs.mp hfar with h | h <;> omega
    simp [processActivityDecision, checkForDuplicate, haidT, hwin, jsTruthyI, haid]

/-- Witness for the reconciler-decision theorem: the Garmin run 45 s and
10 s away from a stored Strava run of nearly equal distance is merged;
the boundary candidate 200 s away from every stored activity is
inserted. -/
theorem reconciler_decision_witness :
    ((7 : Int) ≠ 0 ∧ ∀ r ∈ [sampleStravaRow 5050 1800 0], r.id ≠ 0) ∧
    (∃ i, processActivityDecision [sampleStravaRow 5050 1800 0] sampleGarmin
      (some 7) 1700000000000 = .mergeInto i) ∧
    processActivityDecision [sampleStravaRow 5100 1800 200000] boundaryGarmin
      (some 7) 1700000000000 = .insertNew (-123456) :=
  ⟨⟨by decide, by decide⟩,
   (reconciler_decision [sampleStravaRow 5050 1800 0] sampleGarmin 7 (by decide)
      1700000000000 (by decide)).1
     ⟨sampleStravaRow 5050 1800 0, by decide, by decide, by decide, by decide,
      by decide, by decide⟩,
   (reconciler_decision [sampleStravaRow 5100 1800 200000] boundaryGarmin 7
      (by decide) 1700000000000 (by decide)).2 (by decide)⟩

/-- Decomposition of a successful find?: the found element splits the
list, satisfies the predicate, and every element before it refutes it. -/
theorem find?_decomposition {α : Type} (p : α → Bool) :
    ∀ (l : List α) (a : α), l.find? p = some a →
      ∃ l1 l2, l = l1 ++ a :: l2 ∧ p a = true ∧ ∀ b ∈ l1, p b = false := by
  intro l
  induction l with
  | nil => intro a h; simp [List.find?] at h
  | cons x xs ih =>
    intro a h
    by_cases hx : p x = true
    · rw [List.find?_cons_of_pos _ hx] at h
      obtain rfl : x = a := Option.some.inj h
      exact ⟨[], xs, rfl, hx, by simp⟩
    · rw [List.find?_cons_of_neg _ (by simpa using hx)] at h
      obtain ⟨l1, l2, heq, hpa, hall⟩ := ih a h
      refine ⟨x :: l1, l2, by rw [heq]; rfl, hpa, ?_⟩
      intro b hb
      rcases List.mem_cons.mp hb with rfl | hb
      · simpa using hx
      · exact hall b hb

/-- C8 counterexample: two stored activities both match the candidate;
the enumeration lists the far one (start delta 100 s) before the near
one (start delta 1 s). The reconciler selects the far one — not the
smallest-time-delta match — and reversing the enumeration order changes
the selection. -/
theorem tiebreak_counterexample :
    checkForDuplicate [farRow, nearRow] (some 7) 0 (some 5050) 1790 =
      ⟨true, some 5, some "strava"⟩ ∧
    checkForDuplicate [nearRow, farRow] (some 7) 0 (some 5050) 1790 =
      ⟨true, some 6, some "strava"⟩ ∧
    |nearRow.activity_date - 0| < |farRow.activity_date - 0| ∧
    farRow.id = 5 ∧ nearRow.id = 6 := by decide

/-- C8 amended: when the reconciler reports a duplicate it selects the
first matching stored activity in the enumeration order of the window
query — every activity enumerated before the selected one fails the
distance-and-duration match — with no ordering by absolute time delta. -/
theorem tiebreak_first_match (rows : List ActivityRow) (aid : Int) (startMs : Int)
    (dist : Option Int) (dur : Int) (i : Int) (srcName : String)
    (h : checkForDuplicate rows (some aid) startMs dist dur =
      ⟨true, some i, some srcName⟩) :
    ∃ l1 a l2, queryWindow rows aid startMs = l1 ++ a :: l2 ∧
      a.id = i ∧ a.source = srcName ∧
      (distanceMatch dist a.distance && durationMatch dur a.elapsed_time) = true ∧
      ∀ b ∈ l1,
        (distanceMatch dist b.distance && durationMatch dur b.elapsed_time) = false := by
  unfold checkForDuplicate at h
  by_cases haid : jsTruthyI (some aid) = true
  · simp only [haid, Bool.not_true, Bool.false_eq_true, if_false, Option.getD_some]
      at h
    cases hf : (queryWindow rows aid startMs).find?
        (fun a => distanceMatch dist a.distance && durationMatch dur a.elapsed_time) with
    | none =>
      rw [hf] at h
      simp at h
    | some a =>
      rw [hf] at h
      have hi : a.id = i := by
        have := congrArg DupResult.existingId h
        simpa using this
      have hs : a.source = srcName := by
        have := congrArg DupResult.existingSource h
        simpa using this
      obtain ⟨l1, l2, heq, hpa, hall⟩ := find?_decomposition _ _ _ hf
      exact ⟨l1, a, l2, heq, hi, hs, hpa, hall⟩
  · simp only [haid] at h
    simp at h

/-- Witness for the first-match theorem at the two-row scenario: the
selected id 5 is that of the first enumerated matching row. -/
theorem tiebreak_first_match_witness :
    checkForDuplicate [farRow, nearRow] (some 7) 0 (some 5050) 1790 =
      ⟨true, some 5, some "strava"⟩ ∧
    (∃ l1 a l2, queryWindow [farRow, nearRow] 7 0 = l1 ++ a :: l2 ∧
      a.id = 5 ∧ a.source = "strava" ∧
      (distanceMatch (some 5050) a.distance && durationMatch 1790 a.elapsed_time)
        = true ∧
      ∀ b ∈ l1,
        (distanceMatch (some 5050) b.distance && durationMatch 1790 b.elapsed_time)
          = false) :=
  ⟨by decide,
   tiebreak_first_match [farRow, nearRow] 7 0 (some 5050) 1790 5 "strava" (by decide)⟩

/-- Rewriting the rows that carry a given id preserves how many rows
carry it. -/
theorem countId_update_map (store : List ActivityRow) (row : ActivityRow) :
    countId (store.map (fun x => if x.id == row.id then row else x)) row.id =
      countId store row.id := by
  induction store with
  | nil => rfl
  | cons x xs ih =>
    simp only [countId, List.map_cons, List.filter_cons] at ih ⊢
    by_cases h : (x.id == row.id) = true
    · simp only [h, if_true, beq_self_eq_true, List.length_cons]
      omega
    · simp only [h, if_false, Bool.false_eq_true]
      exact ih

/-- A store holds a row under an id exactly when it counts at least one
row under that id. -/
theorem any_id_iff_countId (store : List ActivityRow) (i : Int) :
    store.any (fun x => x.id == i) = true ↔ countId store i ≠ 0 := by
  constructor
  · intro h h0
    obtain ⟨x, hx, hpx⟩ := List.any_eq_true.mp h
    have hmem : x ∈ store.filter (fun r => r.id == i) :=
      List.mem_filter.mpr ⟨hx, hpx⟩
    unfold countId at h0
    rw [List.length_eq_zero] at h0
    rw [h0] at hmem
    exact absurd hmem (List.not_mem_nil x)
  · intro h
    rcases hne : store.filter (fun r => r.id == i) with _ | ⟨x, xs⟩
    · exact absurd (by simp [countId, hne]) h
    · have hx : x ∈ store.filter (fun r => r.id == i) := by
        rw [hne]; exact List.mem_cons_self x xs
      have hm := List.mem_filter.mp hx
      exact List.any_eq_true.mpr ⟨x, hm.1, hm.2⟩

/-- The id-conflict arms bring the count of rows under the written id to
one when it was zero, and leave it unchanged otherwise. -/
theorem countId_upsertRows (store : List ActivityRow) (row : ActivityRow) :
    countId (upsertRows store row) row.id =
      if countId store row.id = 0 then 1 else countId store row.id := by
  unfold upsertRows
  by_cases h : store.any (fun x => x.id == row.id) = true
  · rw [if_pos h, countId_update_map]
    rw [if_neg ((any_id_iff_countId store row.id).mp h)]
  · rw [if_neg h]
    have h0 : countId store row.id = 0 := by
      by_contra hc
      exact h ((any_id_iff_countId store row.id).mpr hc)
    have hfil : store.filter (fun r => r.id == row.id) = [] := by
      unfold countId at h0
      exact List.length_eq_zero.mp h0
    simp [countId, List.filter_append, hfil, h0]

/-- The id-conflict arms grow the store only when no row carries the id
yet. -/
theorem length_upsertRows (store : List ActivityRow) (row : ActivityRow) :
    (upsertRows store row).length =
      if countId store row.id = 0 then store.length + 1 else store.length := by
  unfold upsertRows
  by_cases h : store.any (fun x => x.id == row.id) = true
  · rw [if_pos h, if_neg ((any_id_iff_countId store row.id).mp h)]
    exact List.length_map store _
  · rw [if_neg h]
    have h0 : countId store row.id = 0 := by
      by_contra hc
      exact h ((any_id_iff_countId store row.id).mpr hc)
    simp [h0]

/-- Every row of the id-conflict result is the written row or a row of
the original store. -/
theorem mem_upsertRows (store : List ActivityRow) (row : ActivityRow) :
    ∀ y ∈ upsertRows store row, y = row ∨ y ∈ store := by
  intro y hy
  unfold upsertRows at hy
  by_cases hany : store.any (fun r => r.id == row.id) = true
  · rw [if_pos hany] at hy
    obtain ⟨x, hx, hxy⟩ := List.mem_map.mp hy
    by_cases hxid : (x.id == row.id) = true
    · left
      rw [← hxy]
      simp [hxid]
    · right
      rw [← hxy]
      simp only [hxid, Bool.false_eq_true, if_false]
      exact hx
  · rw [if_neg hany] at hy
    rcases List.mem_append.mp hy with h | h
    · right; exact h
    · left; simpa using h

/-- The uniqueness check reads only the written row's id, source and
external_id. -/
theorem uniqueViolation_congr (store : List ActivityRow) (row1 row2 : ActivityRow)
    (hid : row2.id = row1.id) (hsrc : row2.source = row1.source)
    (hext : row2.external_id = row1.external_id) :
    uniqueViolation store row2 = uniqueViolation store row1 := by
  unfold uniqueViolation
  rw [hid, hsrc, hext]

/-- Writing a row under an id preserves the absence of a uniqueness
conflict for a row that carries the same id (the other rows are
untouched, and the written row is excluded from its own check). -/
theorem uniqueViolation_upsertRows (store : List ActivityRow)
    (row1 row2 : ActivityRow) (hid : row2.id = row1.id)
    (h : uniqueViolation store row2 = false) :
    uniqueViolation (upsertRows store row1) row2 = false := by
  unfold uniqueViolation at h ⊢
  rcases hE : row2.external_id with _ | e
  · simp only [hE]
  · simp only [hE] at h ⊢
    cases hres : (upsertRows store row1).any
        (fun r => r.id != row2.id && r.source == row2.source &&
          r.external_id == some e) with
    | false => rfl
    | true =>
      exfalso
      obtain ⟨y, hy, hpy⟩ := List.any_eq_true.mp hres
      rcases mem_upsertRows store row1 y hy with rfl | hmem
      · rw [hid] at hpy
        simp at hpy
      · have hc : store.any
            (fun r => r.id != row2.id && r.source == row2.source &&
              r.external_id == some e) = true :=
          List.any_eq_true.mpr ⟨y, hmem, hpy⟩
        rw [hc] at h
        simp at h

/-- When the window query is empty and the unique index does not reject
the Garmin-derived row, processActivity takes the insert path and
succeeds: the result is the id-conflict upsert of that row. -/
theorem processActivityStore_insert (store : List ActivityRow) (g : GarminActivity)
    (athleteId : Option Int) (nowMs : Int)
    (hwin : queryWindow store (athleteId.getD 0) (g.startTimeInSeconds * 1000) = [])
    (hviol : uniqueViolation store (garminInsertRow g athleteId nowMs) = false) :
    processActivityResult store g athleteId nowMs =
      some (upsertRows store (garminInsertRow g athleteId nowMs)) := by
  unfold processActivityResult processActivityDecision checkForDuplicate
  by_cases hA : jsTruthyI athleteId = true
  · simp [hA, hwin, upsertAttempt, hviol]
  · simp [hA, upsertAttempt, hviol]

/-- A truthy Garmin activityId makes the derived id independent of the
clock. -/
theorem garminUniqueId_stable (g : GarminActivity)
    (h : jsTruthyI g.activityId = true) (s1 s2 : Int) :
    garminUniqueId g s1 = garminUniqueId g s2 := by
  unfold garminUniqueId
  simp [h]

/-- C2 counterexample: a Garmin activity carrying no activityId (only a
summaryId) is keyed by the clock, so its second delivery (epoch second
3000 after a first at 2000) attempts an insert under a fresh id; the
partial unique index on (source, external_id) rejects the duplicate
("garmin", "s1") pair and processActivity throws — the second persist
errors instead of updating the row created by the first, which survives
unchanged (its updated_at still reads the first delivery's clock). -/
theorem persist_error_counterexample :
    (garminInsertRow summaryOnlyGarmin (some 7) 2000000).external_id = some "s1" ∧
    (garminInsertRow summaryOnlyGarmin (some 7) 3000000).external_id = some "s1" ∧
    (garminInsertRow summaryOnlyGarmin (some 7) 3000000).id ≠
      (garminInsertRow summaryOnlyGarmin (some 7) 2000000).id ∧
    processActivityResult (processActivityStore [] summaryOnlyGarmin (some 7) 2000000)
      summaryOnlyGarmin (some 7) 3000000 = none ∧
    processActivityStore (processActivityStore [] summaryOnlyGarmin (some 7) 2000000)
      summaryOnlyGarmin (some 7) 3000000 =
      processActivityStore [] summaryOnlyGarmin (some 7) 2000000 ∧
    countSourceExternal (processActivityStore [] summaryOnlyGarmin (some 7) 2000000)
      "garmin" (some "s1") = 1 ∧
    (∀ r ∈ processActivityStore (processActivityStore [] summaryOnlyGarmin (some 7)
        2000000) summaryOnlyGarmin (some 7) 3000000,
      r.updated_at = 2000000) := by decide

/-- C2 amended: persistence is idempotent per the primary-key id, with
the partial unique index guarding (source, external_id). Re-persisting a
Strava activity (keyed by its Strava id, with no other row claiming its
(source, external_id)) succeeds as an update: exactly one row remains
under that id and the store does not grow; a Garmin activity carrying a
truthy activityId has a clock-independent negative id, and re-delivering
it to a store with no cross-source duplicate in its window and no
conflicting identity likewise succeeds as an update, leaving one row.
(A Garmin activity without activityId falls outside this guarantee: its
clock-derived id makes the second delivery an insert that the unique
index rejects.) -/
theorem persist_idempotent
    (store : List ActivityRow) (a : StravaActivity) (now1 now2 : Int)
    (hcount : countId store a.id ≤ 1)
    (hviolA : uniqueViolation store (storeActivityRow a now1) = false)
    (g : GarminActivity) (athleteId : Option Int) (nowMs1 nowMs2 : Int)
    (hgid : jsTruthyI g.activityId = true)
    (store2 : List ActivityRow)
    (hwin : queryWindow store2 (athleteId.getD 0) (g.startTimeInSeconds * 1000) = [])
    (hcount2 : countId store2 (garminUniqueId g (nowMs1 / 1000)) = 0)
    (hviolG : uniqueViolation store2 (garminInsertRow g athleteId nowMs1) = false) :
    ((storeActivityResult (storeActivity store a now1) a now2).isSome = true ∧
      countId (storeActivity (storeActivity store a now1) a now2) a.id = 1 ∧
      (storeActivity (storeActivity store a now1) a now2).length =
        (storeActivity store a now1).length) ∧
    ((processActivityResult (processActivityStore store2 g athleteId nowMs1)
        g athleteId nowMs2).isSome = true ∧
      countId (processActivityStore (processActivityStore store2 g athleteId nowMs1)
        g athleteId nowMs2) (garminUniqueId g (nowMs1 / 1000)) = 1 ∧
      (processActivityStore (processActivityStore store2 g athleteId nowMs1)
          g athleteId nowMs2).length =
        (processActivityStore store2 g athleteId nowMs1).length) := by
  constructor
  · have hid1 : (storeActivityRow a now1).id = a.id := rfl
    have hid2 : (storeActivityRow a now2).id = a.id := rfl
    have hviolA2 : uniqueViolation store (storeActivityRow a now2) = false := hviolA
    have hs1 : storeActivity store a now1 =
        upsertRows store (storeActivityRow a now1) := by
      simp [storeActivity, storeActivityResult, upsertAttempt, hviolA]
    have hc1 : countId (storeActivity store a now1) a.id = 1 := by
      rw [hs1, ← hid1, countId_upsertRows, hid1]
      rcases Nat.lt_or_ge 0 (countId store a.id) with h | h
      · rw [if_neg (by omega)]; omega
      · rw [if_pos (by omega)]
    have hviolS1 : uniqueViolation (storeActivity store a now1)
        (storeActivityRow a now2) = false := by
      rw [hs1]
      exact uniqueViolation_upsertRows store _ _ rfl hviolA2
    have hres2 : storeActivityResult (storeActivity store a now1) a now2 =
        some (upsertRows (storeActivity store a now1) (storeActivityRow a now2)) := by
      simp [storeActivityResult, upsertAttempt, hviolS1]
    have hs2 : storeActivity (storeActivity store a now1) a now2 =
        upsertRows (storeActivity store a now1) (storeActivityRow a now2) := by
      show (storeActivityResult (storeActivity store a now1) a now2).getD
        (storeActivity store a now1) = _
      rw [hres2]
      rfl
    refine ⟨by rw [hres2]; rfl, ?_, ?_⟩
    · rw [hs2, ← hid2, countId_upsertRows, hid2, hc1]
      norm_num
    · rw [hs2, length_upsertRows, hid2, hc1]
      norm_num
  · have hrow1id : (garminInsertRow g athleteId nowMs1).id =
        garminUniqueId g (nowMs1 / 1000) := rfl
    have hrow2id : (garminInsertRow g athleteId nowMs2).id =
        (garminInsertRow g athleteId nowMs1).id := by
      show garminUniqueId g (nowMs2 / 1000) = garminUniqueId g (nowMs1 / 1000)
      exact garminUniqueId_stable g hgid _ _
    have hviolG2 : uniqueViolation store2 (garminInsertRow g athleteId nowMs2)
        = false := by
      rw [uniqueViolation_congr store2 (garminInsertRow g athleteId nowMs1)
        (garminInsertRow g athleteId nowMs2) hrow2id rfl rfl]
      exact hviolG
    have hres1 : processActivityResult store2 g athleteId nowMs1 =
        some (upsertRows store2 (garminInsertRow g athleteId nowMs1)) :=
      processActivityStore_insert store2 g athleteId nowMs1 hwin hviolG
    have hs1 : processActivityStore store2 g athleteId nowMs1 =
        upsertRows store2 (garminInsertRow g athleteId nowMs1) := by
      simp [processActivityStore, hres1]
    have hc1 : countId (processActivityStore store2 g athleteId nowMs1)
        (garminUniqueId g (nowMs1 / 1000)) = 1 := by
      rw [hs1, ← hrow1id, countId_upsertRows, hrow1id, if_pos hcount2]
    have hs1app : upsertRows store2 (garminInsertRow g athleteId nowMs1) =
        store2 ++ [garminInsertRow g athleteId nowMs1] := by
      unfold upsertRows
      rw [if_neg]
      intro hany
      exact absurd hcount2 ((any_id_iff_countId store2 _).mp (by rwa [hrow1id] at hany))
    have hwin2 : queryWindow (processActivityStore store2 g athleteId nowMs1)
        (athleteId.getD 0) (g.startTimeInSeconds * 1000) = [] := by
      rw [hs1, hs1app]
      unfold queryWindow at hwin ⊢
      rw [List.filter_append, hwin]
      simp [garminInsertRow]
    have hviolS1 : uniqueViolation (processActivityStore store2 g athleteId nowMs1)
        (garminInsertRow g athleteId nowMs2) = false := by
      rw [hs1]
      exact uniqueViolation_upsertRows store2 _ _ hrow2id hviolG2
    have hres2 : processActivityResult
        (processActivityStore store2 g athleteId nowMs1) g athleteId nowMs2 =
        some (upsertRows (processActivityStore store2 g athleteId nowMs1)
          (garminInsertRow g athleteId nowMs2)) :=
      processActivityStore_insert _ g athleteId nowMs2 hwin2 hviolS1
    have hs2 : processActivityStore (processActivityStore store2 g athleteId nowMs1)
        g athleteId nowMs2 =
        upsertRows (processActivityStore store2 g athleteId nowMs1)
          (garminInsertRow g athleteId nowMs2) := by
      show (processActivityResult (processActivityStore store2 g athleteId nowMs1)
        g athleteId nowMs2).getD (processActivityStore store2 g athleteId nowMs1) = _
      rw [hres2]
      rfl
    have hrow2gid : (garminInsertRow g athleteId nowMs2).id =
        garminUniqueId g (nowMs1 / 1000) := by
      rw [hrow2id]
      exact hrow1id
    refine ⟨by rw [hres2]; rfl, ?_, ?_⟩
    · rw [hs2, ← hrow2gid, countId_upsertRows, hrow2gid, hc1]
      norm_num
    · rw [hs2, length_upsertRows, hrow2gid, hc1]
      norm_num

/-- Witness for the idempotence theorem: a concrete Strava activity
re-stored on an empty table, and the concrete Garmin run with activityId
123456 re-delivered to an empty table, each succeed the second time and
end with exactly one row. -/
theorem persist_idempotent_witness :
    countId ([] : List ActivityRow) sampleStrava.id ≤ 1 ∧
    uniqueViolation [] (storeActivityRow sampleStrava 0) = false ∧
    jsTruthyI sampleGarmin.activityId = true ∧
    queryWindow [] ((some 7 : Option Int).getD 0)
      (sampleGarmin.startTimeInSeconds * 1000) = [] ∧
    countId ([] : List ActivityRow) (garminUniqueId sampleGarmin (1000 / 1000)) = 0 ∧
    uniqueViolation [] (garminInsertRow sampleGarmin (some 7) 1000) = false ∧
    (((storeActivityResult (storeActivity [] sampleStrava 0) sampleStrava 5).isSome
        = true ∧
      countId (storeActivity (storeActivity [] sampleStrava 0) sampleStrava 5)
        sampleStrava.id = 1 ∧
      (storeActivity (storeActivity [] sampleStrava 0) sampleStrava 5).length =
        (storeActivity [] sampleStrava 0).length) ∧
    ((processActivityResult (processActivityStore [] sampleGarmin (some 7) 1000)
        sampleGarmin (some 7) 9000).isSome = true ∧
      countId (processActivityStore (processActivityStore [] sampleGarmin (some 7) 1000)
        sampleGarmin (some 7) 9000) (garminUniqueId sampleGarmin (1000 / 1000)) = 1 ∧
      (processActivityStore (processActivityStore [] sampleGarmin (some 7) 1000)
          sampleGarmin (some 7) 9000).length =
        (processActivityStore [] sampleGarmin (some 7) 1000).length)) :=
  ⟨by decide, by decide, by decide, by decide, by decide, by decide,
   persist_idempotent [] sampleStrava 0 5 (by decide) (by decide) sampleGarmin
     (some 7) 1000 9000 (by decide) [] (by decide) (by decide) (by decide)⟩

/-- C9 counterexample: a heart rate, power or cadence recorded as zero
is stored as null, not zero: the truthy guards of transformActivityData
and the `value || null` of mapStravaActivity conflate a recorded zero
with an absent value, so "not recorded" and "recorded as zero" are not
distinguishable for these fields. -/
theorem normalization_zero_counterexample :
    zeroHrRecord.average_heartrate = some 0 ∧
    (transformActivityData 7 zeroHrRecord).average_heart_rate = none ∧
    zeroHrRecord.max_watts = some 0 ∧
    (transformActivityData 7 zeroHrRecord).max_watts = none ∧
    zeroCadenceBeta.average_cadence = some 0 ∧
    (mapStravaActivity zeroCadenceBeta 7).average_cadence = none := by decide

/-- C9 amended: absent numeric fields normalize to null (absent heart
rate and power become null in the webhook transform, absent heart rate
and cadence become null in the sync-beta mapping, absent elevation
passes through as null) and nonzero recorded values are stored as
recorded; elevation recorded as zero is stored as zero; but heart rate,
power and cadence recorded as zero are stored as null — the zero is
conflated with absence. -/
theorem normalization_null_semantics (r : StravaDetailRecord) (aid : Int)
    (b : StravaBetaActivity) (aid2 : Int) :
    (r.average_heartrate = none →
      (transformActivityData aid r).average_heart_rate = none) ∧
    (r.max_heartrate = none → (transformActivityData aid r).max_heart_rate = none) ∧
    (r.average_watts = none → (transformActivityData aid r).average_watts = none) ∧
    (r.max_watts = none → (transformActivityData aid r).max_watts = none) ∧
    (transformActivityData aid r).elevation_gain = r.total_elevation_gain ∧
    (transformActivityData aid r).elevation_high = r.elev_high ∧
    (transformActivityData aid r).elevation_low = r.elev_low ∧
    (∀ v : Int, v ≠ 0 → r.average_heartrate = some v →
      (transformActivityData aid r).average_heart_rate = some v) ∧
    (∀ v : Int, v ≠ 0 → r.max_heartrate = some v →
      (transformActivityData aid r).max_heart_rate = some v) ∧
    (∀ v : Int, v ≠ 0 → r.average_watts = some v →
      (transformActivityData aid r).average_watts = some v) ∧
    (r.average_heartrate = some 0 →
      (transformActivityData aid r).average_heart_rate = none) ∧
    (r.average_watts = some 0 → (transformActivityData aid r).average_watts = none) ∧
    (b.average_heartrate = none →
      (mapStravaActivity b aid2).average_heart_rate = none) ∧
    (b.average_cadence = none → (mapStravaActivity b aid2).average_cadence = none) ∧
    (∀ v : Int, v ≠ 0 → b.average_heartrate = some v →
      (mapStravaActivity b aid2).average_heart_rate = some v) ∧
    (∀ v : Int, v ≠ 0 → b.average_cadence = some v →
      (mapStravaActivity b aid2).average_cadence = some v) ∧
    (b.average_heartrate = some 0 →
      (mapStravaActivity b aid2).average_heart_rate = none) ∧
    (b.average_cadence = some 0 → (mapStravaActivity b aid2).average_cadence = none) ∧
    (mapStravaActivity b aid2).elevation_gain = b.total_elevation_gain := by
  refine ⟨?_, ?_, ?_, ?_, rfl, rfl, rfl, ?_, ?_, ?_, ?_, ?_, ?_, ?_, ?_, ?_, ?_, ?_, rfl⟩
  all_goals intros
  all_goals simp_all [transformActivityData, mapStravaActivity, jsTruthyI]

/-- Witness for the normalization theorem: a record with heart rate 150
stores 150; the sync-beta activity with cadence recorded as zero stores
null. -/
theorem normalization_null_semantics_witness :
    (150 : Int) ≠ 0 ∧ hrRecord.average_heartrate = some 150 ∧
    zeroCadenceBeta.average_cadence = some 0 ∧
    (transformActivityData 7 hrRecord).average_heart_rate = some 150 ∧
    (mapStravaActivity zeroCadenceBeta 7).average_cadence = none :=
  ⟨by decide, by decide, by decide,
   (normalization_null_semantics hrRecord 7 zeroCadenceBeta 7).2.2.2.2.2.2.2.1
     150 (by decide) (by decide),
   (normalization_null_semantics hrRecord 7 zeroCadenceBeta 7).2.2.2.2.2.2.2.2.2.2.2.2.2.2.2.2.2.1
     (by decide)⟩
